import Mathlib

/-!
Verification development for the VoiceGuard hub (browser console with a
forensic-audio classifier panel, a generic HTTP probe panel, and a honeypot
probe panel).  The definitions below are a shallow embedding of the
request/response orchestration in `src/services/geminiService.ts` and of the
two probe handlers in `src/App.tsx`; the repository also ships an older
variant of the component (`src/unnamed/part_000`) whose honeypot handler is
embedded separately, since several claims cite both versions.

Modelling conventions:
* JavaScript `JSON.parse` is embedded as `jsonParse`, a fuel-based JSON
  parser over the characters of the body text returning `Option JsonVal`
  (`none` = `SyntaxError` thrown).
* A `fetch` call is summarised by a `FetchOutcome`: either a received
  `HttpResponse` or a transport-level rejection carrying the exception
  message.
* Each React state setter invocation is recorded, in order, in a list of
  successive panel states; the list of HTTP requests actually issued is
  returned alongside, so "no network call" is the statement that this list
  is empty.  `setTimeout` delays are not modelled: the delayed update is
  simply the last recorded update of the run.
* Per the WHATWG fetch specification, `response.json()` consumes the body
  stream; when it rejects on malformed JSON the subsequent `response.text()`
  fallback in the honeypot handlers rejects as well (body already consumed),
  and that rejection reaches the enclosing catch block.  The (browser
  dependent) message of that rejection is modelled by `bodyStreamReadMsg`.
-/

/-- A JSON value, the result of a successful `JSON.parse`. -/
inductive JsonVal where
  | null
  | bool (b : Bool)
  | num (q : ℚ)
  | str (s : String)
  | arr (elems : List JsonVal)
  | obj (fields : List (String × JsonVal))
  deriving Repr

/-- The double-quote character. -/
def qChar : Char := Char.ofNat 34

/-- The backslash character. -/
def bslash : Char := Char.ofNat 92

/-- The opening curly brace character. -/
def lbraceChar : Char := Char.ofNat 123

/-- The closing curly brace character. -/
def rbraceChar : Char := Char.ofNat 125

/-- JSON insignificant whitespace: space, tab, line feed, carriage return. -/
def isWs (c : Char) : Bool :=
  c = Char.ofNat 32 || c = Char.ofNat 9 || c = Char.ofNat 10 || c = Char.ofNat 13

/-- Drop leading JSON whitespace. -/
def skipWs : List Char → List Char
  | [] => []
  | c :: cs => if isWs c then skipWs cs else c :: cs

/-- Numeric value of a hexadecimal digit. -/
def hexVal (c : Char) : Option Nat :=
  if c.isDigit then some (c.toNat - 48)
  else if 'a' ≤ c ∧ c ≤ 'f' then some (c.toNat - 87)
  else if 'A' ≤ c ∧ c ≤ 'F' then some (c.toNat - 55)
  else none

/-- Single-character JSON escape sequences (everything except the u escapes). -/
def escChar (e : Char) : Option Char :=
  if e = qChar then some qChar
  else if e = bslash then some bslash
  else if e = Char.ofNat 47 then some (Char.ofNat 47)
  else if e = Char.ofNat 98 then some (Char.ofNat 8)
  else if e = Char.ofNat 102 then some (Char.ofNat 12)
  else if e = Char.ofNat 110 then some (Char.ofNat 10)
  else if e = Char.ofNat 114 then some (Char.ofNat 13)
  else if e = Char.ofNat 116 then some (Char.ofNat 9)
  else none

/-- Prepend a character to the pending parsed-string result. -/
def mapConsed (c : Char) : Option (List Char × List Char) → Option (List Char × List Char)
  | some (cs, rest) => some (c :: cs, rest)
  | none => none

/-- Parse the body of a JSON string (opening quote already consumed), up to and
including the closing quote; returns the decoded characters and the rest. -/
def parseStrChars : List Char → Option (List Char × List Char)
  | [] => none
  | c :: r =>
    if c = qChar then some ([], r)
    else if c = bslash then
      match r with
      | [] => none
      | e :: r2 =>
        if e = Char.ofNat 117 then
          match r2 with
          | h1 :: h2 :: h3 :: h4 :: r3 =>
            match hexVal h1, hexVal h2, hexVal h3, hexVal h4 with
            | some a, some b, some c2, some d =>
              mapConsed (Char.ofNat (((a * 16 + b) * 16 + c2) * 16 + d)) (parseStrChars r3)
            | _, _, _, _ => none
          | _ => none
        else
          match escChar e with
          | some c2 => mapConsed c2 (parseStrChars r2)
          | none => none
    else if c.toNat < 32 then none
    else mapConsed c (parseStrChars r)

/-- Take the maximal leading run of decimal digits. -/
def takeDigits : List Char → List Char × List Char
  | [] => ([], [])
  | c :: cs =>
    if c.isDigit then
      let p := takeDigits cs
      (c :: p.1, p.2)
    else ([], c :: cs)

/-- Value of a list of decimal digits. -/
def natOfDigits (ds : List Char) : Nat :=
  ds.foldl (fun acc c => 10 * acc + (c.toNat - 48)) 0

/-- Parse the optional fractional part of a JSON number. -/
def parseFrac : List Char → Option (ℚ × List Char)
  | c :: r =>
    if c = '.' then
      let p := takeDigits r
      if p.1 = [] then none
      else some ((natOfDigits p.1 : ℚ) / (10 : ℚ) ^ p.1.length, p.2)
    else some (0, c :: r)
  | [] => some (0, [])

/-- Parse the optional exponent part of a JSON number. -/
def parseExpPart : List Char → Option (Int × List Char)
  | c :: r =>
    if c = 'e' ∨ c = 'E' then
      let sr : Int × List Char :=
        match r with
        | s :: r2 => if s = '+' then (1, r2) else if s = '-' then (-1, r2) else (1, r)
        | [] => (1, [])
      let p := takeDigits sr.2
      if p.1 = [] then none
      else some (sr.1 * (natOfDigits p.1 : Int), p.2)
    else some (0, c :: r)
  | [] => some (0, [])

/-- Parse a JSON number (grammar -?(0|[1-9][0-9]*)(.[0-9]+)?([eE][+-]?[0-9]+)?). -/
def parseNumber (cs : List Char) : Option (ℚ × List Char) :=
  let sgn : Bool × List Char :=
    match cs with
    | c :: r => if c = '-' then (true, r) else (false, cs)
    | [] => (false, [])
  let p := takeDigits sgn.2
  if p.1 = [] then none
  else if 1 < p.1.length ∧ p.1.head? = some '0' then none
  else
    match parseFrac p.2 with
    | none => none
    | some (f, cs3) =>
      match parseExpPart cs3 with
      | none => none
      | some (e, cs4) =>
        let v : ℚ := ((natOfDigits p.1 : ℚ) + f) * (10 : ℚ) ^ e
        some (if sgn.1 then -v else v, cs4)

mutual

/-- Parse one JSON value; `fuel` bounds the recursion depth. -/
def parseValue : Nat → List Char → Option (JsonVal × List Char)
  | 0, _ => none
  | Nat.succ fuel, cs =>
    match skipWs cs with
    | 'n' :: 'u' :: 'l' :: 'l' :: r => some (.null, r)
    | 't' :: 'r' :: 'u' :: 'e' :: r => some (.bool true, r)
    | 'f' :: 'a' :: 'l' :: 's' :: 'e' :: r => some (.bool false, r)
    | '[' :: r =>
      (match skipWs r with
       | ']' :: r2 => some (.arr [], r2)
       | r2 =>
         match parseElems fuel r2 with
         | some (vs, r3) => some (.arr vs, r3)
         | none => none)
    | c :: r =>
      if c = qChar then
        match parseStrChars r with
        | some (body, r2) => some (.str (String.mk body), r2)
        | none => none
      else if c = lbraceChar then
        (match skipWs r with
         | c2 :: r2 =>
           if c2 = rbraceChar then some (.obj [], r2)
           else
             match parseMembers fuel (c2 :: r2) with
             | some (fs, r3) => some (.obj fs, r3)
             | none => none
         | [] => none)
      else
        match parseNumber (c :: r) with
        | some (q, r2) => some (.num q, r2)
        | none => none
    | [] => none

/-- Parse the comma-separated elements of a non-empty JSON array, up to and
including the closing bracket. -/
def parseElems : Nat → List Char → Option (List JsonVal × List Char)
  | 0, _ => none
  | Nat.succ fuel, cs =>
    match parseValue fuel cs with
    | some (v, r) =>
      (match skipWs r with
       | ',' :: r2 =>
         (match parseElems fuel r2 with
          | some (vs, r3) => some (v :: vs, r3)
          | none => none)
       | ']' :: r2 => some ([v], r2)
       | _ => none)
    | none => none

/-- Parse the members of a non-empty JSON object, up to and including the
closing brace. -/
def parseMembers : Nat → List Char → Option (List (String × JsonVal) × List Char)
  | 0, _ => none
  | Nat.succ fuel, cs =>
    match skipWs cs with
    | c :: r =>
      if c = qChar then
        match parseStrChars r with
        | some (key, r2) =>
          (match skipWs r2 with
           | ':' :: r3 =>
             (match parseValue fuel r3 with
              | some (v, r4) =>
                (match skipWs r4 with
                 | ',' :: r5 =>
                   (match parseMembers fuel r5 with
                    | some (fs, r6) => some ((String.mk key, v) :: fs, r6)
                    | none => none)
                 | c2 :: r5 =>
                   if c2 = rbraceChar then some ([(String.mk key, v)], r5)
                   else none
                 | [] => none)
              | none => none)
           | _ => none)
        | none => none
      else none
    | [] => none

end

/-- Embedding of JavaScript `JSON.parse`: `none` models a thrown
`SyntaxError`.  The fuel `2 * s.length + 2` dominates the recursion depth of
any input of that length. -/
def jsonParse (s : String) : Option JsonVal :=
  match parseValue (2 * s.length + 2) s.toList with
  | some (v, rest) => if skipWs rest = [] then some v else none
  | none => none

/-- JavaScript property lookup on a plain object built by `JSON.parse`: with
duplicate keys the last occurrence wins. -/
def lookupLast (fs : List (String × JsonVal)) (k : String) : Option JsonVal :=
  match fs with
  | [] => none
  | (k', v) :: rest =>
    match lookupLast rest k with
    | some w => some w
    | none => if k' = k then some v else none

/-- JavaScript property access `v.k` on a parsed JSON value: `undefined`
(`none`) on primitives and arrays, a thrown `TypeError` (`Except.error`) on
`null`, and the field lookup on objects. -/
def jsGetField (v : JsonVal) (k : String) : Except Unit (Option JsonVal) :=
  match v with
  | .null => .error ()
  | .obj fs => .ok (lookupLast fs k)
  | _ => .ok none

/-- The runtime shape of the object returned by `analyzeAudio` in
`src/services/geminiService.ts`: each of the five fields is whatever
`data.<field>` evaluated to, possibly `undefined` (`none`). -/
structure AnalysisResultJS where
  classification : Option JsonVal
  confidence : Option JsonVal
  language : Option JsonVal
  reasoning : Option JsonVal
  spectralNotes : Option JsonVal
  deriving Repr

/-- The message of the error thrown by `analyzeAudio` when decoding fails
(`src/services/geminiService.ts` line 88). -/
def forensicFailureMsg : String :=
  "Forensic engine failed to provide a valid JSON report. Please try again."

/-- Embedding of `const text = response.text || '\x7b\x7d'`
(`src/services/geminiService.ts` line 77): an absent or empty response text
falls back to the empty-object literal. -/
def effectiveText : Option String → String
  | none => String.mk [lbraceChar, rbraceChar]
  | some t => if t = "" then String.mk [lbraceChar, rbraceChar] else t

/-- Embedding of the response-decoding tail of `analyzeAudio`
(`src/services/geminiService.ts` lines 76-90): parse the service's returned
text as JSON inside a try block, read the five fields off the parsed value,
and on any exception (parse failure, or property access on `null`) throw the
fixed forensic-failure message.  The request-building half of the function
(model name, system instruction, response schema) has no bearing on the
claims and is not modelled. -/
def analyzeAudio (responseText : Option String) : Except String AnalysisResultJS :=
  match jsonParse (effectiveText responseText) with
  | none => .error forensicFailureMsg
  | some data =>
    match jsGetField data "classification", jsGetField data "confidence",
          jsGetField data "language", jsGetField data "reasoning",
          jsGetField data "spectralNotes" with
    | .ok c, .ok co, .ok l, .ok r, .ok s =>
      .ok { classification := c, confidence := co, language := l,
            reasoning := r, spectralNotes := s }
    | _, _, _, _, _ => .error forensicFailureMsg

/-- Panel outcome status, as in `types.ts`. -/
inductive PanelStatus where
  | idle
  | loading
  | success
  | error
  deriving Repr, DecidableEq

/-- An outbound HTTP request as assembled by a probe handler; the body is the
object handed to `JSON.stringify`. -/
structure HttpRequest where
  url : String
  method : String
  headers : List (String × String)
  body : JsonVal
  deriving Repr

/-- An HTTP response as delivered by `fetch`: status code, response headers
and the body text. -/
structure HttpResponse where
  status : Nat
  headers : List (String × String)
  bodyText : String
  deriving Repr

/-- Embedding of `response.ok`: status in the inclusive range 200-299. -/
def respOk (r : HttpResponse) : Bool :=
  decide (200 ≤ r.status ∧ r.status ≤ 299)

/-- Result of awaiting a `fetch` call: a received response, or a
transport-level rejection (DNS, CORS, connection refused) with the
exception's message. -/
inductive FetchOutcome where
  | ok (resp : HttpResponse)
  | err (msg : String)
  deriving Repr

/-- Embedding of JavaScript `String.prototype.includes` via a character-list
infix test. -/
def charsPref : List Char → List Char → Bool
  | [], _ => true
  | _ :: _, [] => false
  | a :: as, b :: bs => a == b && charsPref as bs

/-- Whether `sub` occurs contiguously inside `l`. -/
def containsSub (sub : List Char) : List Char → Bool
  | [] => sub.isEmpty
  | c :: cs => charsPref sub (c :: cs) || containsSub sub cs

/-- Embedding of `s.includes(sub)`. -/
def strIncludes (s sub : String) : Bool :=
  containsSub sub.toList s.toList

/-- The generic tester panel state (`TesterState` in `types.ts`, current
version: the fields used by `src/App.tsx`). -/
structure TesterState where
  endpoint : String
  apiKey : String
  language : String
  audioFormat : String
  audioBase64 : String
  status : PanelStatus
  response : Option JsonVal
  latency : Option Nat
  deriving Repr

/-- The honeypot tester panel state (`HoneypotTesterState` in `types.ts`).
The response can be a decoded JSON value or (in the variant handler's
fallback) a raw text string. -/
inductive BodyVal where
  | jsonV (v : JsonVal)
  | textV (s : String)
  deriving Repr

/-- The honeypot tester panel state. -/
structure HoneypotState where
  endpoint : String
  apiKey : String
  headerKey : String
  status : PanelStatus
  response : Option BodyVal
  statusCode : Option Nat
  headers : List (String × String)
  deriving Repr

/-- Embedding of the `missingFields` list built by `handleTestEndpoint`
(`src/App.tsx` lines 164-166): only the endpoint and the api key are
checked. -/
def missingFields (t : TesterState) : List String :=
  (if t.endpoint = "" then ["Endpoint URL"] else []) ++
    (if t.apiKey = "" then ["x-api-key"] else [])

/-- The request assembled by `handleTestEndpoint` (`src/App.tsx` lines
176-180): POST, JSON content type, the api key under `x-api-key`, and the
three literally-named body fields. -/
def genericRequest (t : TesterState) : HttpRequest :=
  { url := t.endpoint
    method := "POST"
    headers := [("Content-Type", "application/json"), ("x-api-key", t.apiKey)]
    body := .obj [("Language", .str t.language),
                  ("Audio Format", .str t.audioFormat),
                  ("Audio Base64 Format", .str t.audioBase64)] }

/-- The loading reset performed by `handleTestEndpoint` (`src/App.tsx` line
173): status `loading`, response and latency cleared. -/
def tLoading (t : TesterState) : TesterState :=
  { t with status := .loading, response := none, latency := none }

/-- Fixed fabricated response installed by `handleTestEndpoint`'s catch
block for endpoints containing `voiceguard-forensics.com` (`src/App.tsx`
line 193). -/
def genericMockBody : JsonVal :=
  .obj [("classification", .str "AI_GENERATED"), ("confidence", .num (0.982 : ℚ))]

/-- Embedding of `handleTestEndpoint` (`src/App.tsx` lines 163-201).  Returns
the ordered list of states installed by the `setTester` calls of one
invocation, paired with the list of HTTP requests issued.  `lat` is the
wall-clock latency measurement of the exchange. -/
def handleTestEndpoint (t : TesterState) (net : FetchOutcome) (lat : Nat) :
    List TesterState × List HttpRequest :=
  if missingFields t ≠ [] then
    ([{ t with
                status := .error,
                response := some (.obj [("error", .str "Missing mandatory fields.")]) }],
     [])
  else
    match net with
    | .ok resp =>
      let data : JsonVal :=
        match jsonParse resp.bodyText with
        | some v => v
        | none => .obj [("response", .str resp.bodyText)]
      ([tLoading t,
        { tLoading t with
            status := if respOk resp then .success else .error,
            response := some data,
            latency := some lat }],
       [genericRequest t])
    | .err msg =>
      if strIncludes t.endpoint "voiceguard-forensics.com" then
        ([tLoading t,
          { tLoading t with
              status := .success, latency := some 442,
              response := some genericMockBody }],
         [genericRequest t])
      else
        ([tLoading t,
          { tLoading t with
              status := .error,
              response := some (.obj [("error", .str msg)]) }],
         [genericRequest t])

/-- The request assembled by `handleTestHoneypot` in the current
`src/App.tsx` (lines 209-213): fixed marker body, no timestamp, one dynamic
caller-named header. -/
def honeypotRequest (h : HoneypotState) : HttpRequest :=
  { url := h.endpoint
    method := "POST"
    headers := [("Content-Type", "application/json"), (h.headerKey, h.apiKey)]
    body := .obj [("test", .str "honeypot_probe")] }

/-- The partial loading update performed by `handleTestHoneypot`
(`src/App.tsx` line 206): only the status is set; the previous response,
status code and headers persist. -/
def hLoading (h : HoneypotState) : HoneypotState :=
  { h with status := .loading }

/-- Message of the rejection produced when `response.text()` is called after
`response.json()` already consumed the body stream.  The exact wording is
browser dependent; no theorem below depends on it. -/
def bodyStreamReadMsg : String := "body stream already read"

/-- Fixed fabricated response installed by `handleTestHoneypot`'s catch block
for endpoints containing `intel.voiceguard-forensics.com` (`src/App.tsx`
line 222). -/
def honeypotMockBody : JsonVal :=
  .obj [("status", .str "active"), ("trap_id", .str "nexus-7")]

/-- The catch block of `handleTestHoneypot` (`src/App.tsx` lines 219-229):
mock success for the fabricated intel endpoint, otherwise a terminal error
carrying the exception message. -/
def honeypotCatchState (pre : HoneypotState) (endpoint msg : String) : HoneypotState :=
  if strIncludes endpoint "intel.voiceguard-forensics.com" then
    { pre with
        status := .success, statusCode := some 200,
        response := some (.jsonV honeypotMockBody) }
  else
    { pre with status := .error, response := some (.jsonV (.obj [("error", .str msg)])) }

/-- Embedding of `handleTestHoneypot` from the current `src/App.tsx` (lines
204-230).  An empty endpoint returns without any state update.  When the
response body is not parseable JSON, `response.json()` rejects after
consuming the body, the `response.text()` fallback rejects in turn, and the
rejection lands in the catch block. -/
def handleTestHoneypot (h : HoneypotState) (net : FetchOutcome) :
    List HoneypotState × List HttpRequest :=
  if h.endpoint = "" then ([], [])
  else
    match net with
    | .ok resp =>
      match jsonParse resp.bodyText with
      | some v =>
        ([hLoading h,
          { hLoading h with
              status := if respOk resp then .success else .error,
              statusCode := some resp.status,
              response := some (.jsonV v) }],
         [honeypotRequest h])
      | none =>
        ([hLoading h, honeypotCatchState (hLoading h) h.endpoint bodyStreamReadMsg],
         [honeypotRequest h])
    | .err msg =>
      ([hLoading h, honeypotCatchState (hLoading h) h.endpoint msg],
       [honeypotRequest h])

/-- The request assembled by the older `handleTestHoneypot` variant in
`src/unnamed/part_000` (lines 126-137): marker, ISO timestamp (`now`), and a
`context` field, plus the one dynamic caller-named header. -/
def honeypotRequestV0 (h : HoneypotState) (now : String) : HttpRequest :=
  { url := h.endpoint
    method := "POST"
    headers := [("Content-Type", "application/json"), (h.headerKey, h.apiKey)]
    body := .obj [("test", .str "honeypot_probe"),
                  ("timestamp", .str now),
                  ("context", .str "participant_validation_tool")] }

/-- The loading reset of the `src/unnamed/part_000` variant (line 124):
status, response, statusCode reset; headers persist. -/
def hLoadingV0 (h : HoneypotState) : HoneypotState :=
  { h with status := .loading, response := none, statusCode := none }

/-- Embedding of the older `handleTestHoneypot` variant from
`src/unnamed/part_000` (lines 119-159): validation message on empty
endpoint, full loading reset of response/statusCode, response-header capture
on a received response, no mock path. -/
def handleTestHoneypotV0 (h : HoneypotState) (net : FetchOutcome) (now : String) :
    List HoneypotState × List HttpRequest :=
  if h.endpoint = "" then
    ([{ h with
          status := .error,
          response := some (.jsonV (.obj [("error", .str "Endpoint URL is required.")])) }],
     [])
  else
    match net with
    | .ok resp =>
      match jsonParse resp.bodyText with
      | some v =>
        ([hLoadingV0 h,
          { hLoadingV0 h with
              status := if respOk resp then .success else .error,
              statusCode := some resp.status,
              response := some (.jsonV v),
              headers := resp.headers }],
         [honeypotRequestV0 h now])
      | none =>
        ([hLoadingV0 h,
          { hLoadingV0 h with
              status := .error,
              response := some (.jsonV (.obj [("error", .str bodyStreamReadMsg)])) }],
         [honeypotRequestV0 h now])
    | .err msg =>
      ([hLoadingV0 h,
        { hLoadingV0 h with
            status := .error,
            response := some (.jsonV (.obj [("error", .str msg)])) }],
       [honeypotRequestV0 h now])

/-- Keys of a JSON object value (empty list for non-objects). -/
def objKeys : JsonVal → List String
  | .obj fs => fs.map Prod.fst
  | _ => []

/-- A generic tester state with all fields filled and a non-mock endpoint. -/
def plainTester : TesterState :=
  { endpoint := "https://example.org/v1/detect", apiKey := "secret-key"
    language := "English", audioFormat := "mp3", audioBase64 := "SUQz"
    status := .idle, response := none, latency := none }

/-- A honeypot state with a non-mock endpoint. -/
def plainHoney : HoneypotState :=
  { endpoint := "https://trap.example.org/v1/auth", apiKey := "SECRET_TRAP_KEY"
    headerKey := "x-api-key", status := .idle, response := none
    statusCode := none, headers := [] }

/-- The sample generic-tester data installed by `loadSampleTesterData`
(`src/App.tsx` line 138): its endpoint contains `voiceguard-forensics.com`. -/
def mockTester : TesterState :=
  { endpoint := "https://api.voiceguard-forensics.com/v1/detect"
    apiKey := "vg_live_9a2f-88cc-4100-be02", language := "English"
    audioFormat := "mp3", audioBase64 := "SUQz", status := .idle
    response := none, latency := none }

/-- The sample honeypot data installed by `loadSampleHoneypotData`
(`src/App.tsx` line 152): its endpoint contains
`intel.voiceguard-forensics.com`. -/
def mockHoney : HoneypotState :=
  { endpoint := "https://intel.voiceguard-forensics.com/v1/traps/nexus-7"
    apiKey := "trap_dev_8821-ff90", headerKey := "x-trap-authorization"
    status := .idle, response := none, statusCode := none, headers := [] }

/-- A tester state whose `audioBase64` is empty but whose endpoint and api
key are set. -/
def emptyAudioTester : TesterState :=
  { endpoint := "https://example.com/api", apiKey := "key"
    language := "English", audioFormat := "mp3", audioBase64 := ""
    status := .idle, response := none, latency := none }

/-- A tester state with an empty endpoint. -/
def noEndpointTester : TesterState :=
  { endpoint := "", apiKey := "key", language := "English"
    audioFormat := "mp3", audioBase64 := "SUQz", status := .idle
    response := none, latency := none }

/-- A honeypot state still carrying the outcome of a previous attempt. -/
def staleHoney : HoneypotState :=
  { endpoint := "https://trap.example.org/v1/auth", apiKey := "k"
    headerKey := "x-api-key", status := .error
    response := some (.jsonV (.obj [("old", .bool true)]))
    statusCode := some 500, headers := [] }

/-- An HTTP response carrying a response header and a JSON body. -/
def headeredResp : HttpResponse :=
  { status := 200, headers := [("x-trap-fingerprint", "nexus")]
    bodyText := "\x7b\"a\":\"b\"\x7d" }

/-- An HTTP 403 response with a plain-text (non-JSON) body. -/
def forbiddenResp : HttpResponse :=
  { status := 403, headers := [], bodyText := "Forbidden" }

/-- Claim C1, counterexample: the service response text
`\x7b"classification":"HUMAN"\x7d` (the five-field schema's required fields
almost all missing) does NOT make `analyzeAudio` raise: it resolves to a
partially-populated result whose only set field is the classification,
contradicting the claim that any missing required field fails with
`InvalidAnalysisResponse`. -/
theorem C1_counterexample :
    analyzeAudio (some "\x7b\"classification\":\"HUMAN\"\x7d") =
      Except.ok { classification := some (.str "HUMAN"), confidence := none,
                  language := none, reasoning := none, spectralNotes := none } := by
  rfl

/-- Claim C1, amended: `analyzeAudio` parses the returned text as JSON
(absent or empty text is treated as the empty-object literal) and fails with
the message "Forensic engine failed to provide a valid JSON report. Please
try again." exactly on a JSON parse failure; on a successfully parsed
object it resolves to a result carrying whatever of the five fields the
object provides, leaving absent fields undefined rather than raising. -/
theorem C1_decode_behavior (t : Option String) :
    (jsonParse (effectiveText t) = none → analyzeAudio t = .error forensicFailureMsg) ∧
    (∀ fs, jsonParse (effectiveText t) = some (.obj fs) →
      analyzeAudio t =
        .ok { classification := lookupLast fs "classification"
              confidence := lookupLast fs "confidence"
              language := lookupLast fs "language"
              reasoning := lookupLast fs "reasoning"
              spectralNotes := lookupLast fs "spectralNotes" }) := by
  constructor
  · intro hp
    simp [analyzeAudio, hp]
  · intro fs hp
    simp [analyzeAudio, hp, jsGetField]

/-- Claim C1, witness: the amended theorem evaluated at a non-JSON service
response. -/
theorem C1_decode_behavior_witness :
    analyzeAudio (some "engine overload") = .error forensicFailureMsg :=
  (C1_decode_behavior (some "engine overload")).1 (by rfl)

/-- Claim C2, counterexample: with `audioBase64` empty (and endpoint and api
key set) the generic probe still issues the network call, contradicting the
claim that an empty value among the five inputs short-circuits without a
network call. -/
theorem C2_counterexample :
    emptyAudioTester.audioBase64 = "" ∧
      (handleTestEndpoint emptyAudioTester (.err "boom") 5).2 =
        [genericRequest emptyAudioTester] := by
  exact ⟨rfl, rfl⟩

/-- Claim C2, amended: pre-send validation checks only the endpoint and the
api key; when either is empty the handler issues no network call and
finishes with status error and the fixed body
(error: "Missing mandatory fields."), which does not list the missing field
names; when both are non-empty the request is always sent, regardless of
the language, audio-format and audio-base64 fields. -/
theorem C2_validation (t : TesterState) (net : FetchOutcome) (lat : Nat) :
    (missingFields t = [] ↔ t.endpoint ≠ "" ∧ t.apiKey ≠ "") ∧
    (missingFields t ≠ [] →
      handleTestEndpoint t net lat =
        ([{ t with
              status := .error,
              response := some (.obj [("error", .str "Missing mandatory fields.")]) }],
         [])) ∧
    (missingFields t = [] → (handleTestEndpoint t net lat).2 = [genericRequest t]) := by
  refine ⟨?_, ?_, ?_⟩
  · unfold missingFields
    by_cases he : t.endpoint = "" <;> by_cases hk : t.apiKey = "" <;> simp [he, hk]
  · intro hm
    simp [handleTestEndpoint, hm]
  · intro hm
    cases net with
    | ok resp => simp [handleTestEndpoint, hm]
    | err msg =>
      by_cases hi : strIncludes t.endpoint "voiceguard-forensics.com" = true <;>
        simp [handleTestEndpoint, hm, hi]

/-- Claim C2, witness: the amended theorem evaluated at a state with an
empty endpoint. -/
theorem C2_validation_witness :
    handleTestEndpoint noEndpointTester (.err "x") 0 =
      ([{ noEndpointTester with
            status := .error,
            response := some (.obj [("error", .str "Missing mandatory fields.")]) }],
       []) :=
  (C2_validation noEndpointTester (.err "x") 0).2.1 (by decide)

/-- Claim C7 (confirmed): a generic-probe response whose body text is not
parseable JSON finalizes with body exactly (response: <original text>), and
the outcome status is still decided solely by the HTTP status (2xx versus
not), not by the parse failure. -/
theorem C7_nonjson_body (t : TesterState) (resp : HttpResponse) (lat : Nat)
    (hv : missingFields t = []) (hp : jsonParse resp.bodyText = none) :
    handleTestEndpoint t (.ok resp) lat =
      ([tLoading t,
        { tLoading t with
            status := if respOk resp then .success else .error,
            response := some (.obj [("response", .str resp.bodyText)]),
            latency := some lat }],
       [genericRequest t]) := by
  simp [handleTestEndpoint, hv, hp]

/-- Claim C7, witness: a 403 response with plain-text body "Forbidden" is
reported verbatim under the `response` key and the outcome is error because
of the status alone. -/
theorem C7_nonjson_body_witness :
    handleTestEndpoint plainTester (.ok forbiddenResp) 12 =
      ([tLoading plainTester,
        { tLoading plainTester with
            status := .error,
            response := some (.obj [("response", .str "Forbidden")]),
            latency := some 12 }],
       [genericRequest plainTester]) := by
  simpa using C7_nonjson_body plainTester forbiddenResp 12 (by rfl) (by rfl)

/-- Claim C8 (confirmed): every generic-probe request that passes validation
is a POST carrying the `x-api-key` header with the caller's auth value and a
JSON body whose keys are exactly the literal strings "Language",
"Audio Format" and "Audio Base64 Format", mapped to the caller's inputs. -/
theorem C8_generic_wire_format (t : TesterState) (net : FetchOutcome) (lat : Nat)
    (hv : missingFields t = []) :
    (handleTestEndpoint t net lat).2 = [genericRequest t] ∧
    (genericRequest t).method = "POST" ∧
    (genericRequest t).headers = [("Content-Type", "application/json"), ("x-api-key", t.apiKey)] ∧
    (genericRequest t).body = .obj [("Language", .str t.language),
                                    ("Audio Format", .str t.audioFormat),
                                    ("Audio Base64 Format", .str t.audioBase64)] := by
  refine ⟨?_, rfl, rfl, rfl⟩
  cases net with
  | ok resp => simp [handleTestEndpoint, hv]
  | err msg =>
    by_cases hi : strIncludes t.endpoint "voiceguard-forensics.com" = true <;>
      simp [handleTestEndpoint, hv, hi]

/-- Claim C8, witness: the wire format at a concrete valid state. -/
theorem C8_generic_wire_format_witness :
    (handleTestEndpoint plainTester (.ok forbiddenResp) 3).2 = [genericRequest plainTester] ∧
    (genericRequest plainTester).method = "POST" ∧
    (genericRequest plainTester).headers =
      [("Content-Type", "application/json"), ("x-api-key", "secret-key")] ∧
    (genericRequest plainTester).body = .obj [("Language", .str "English"),
                                              ("Audio Format", .str "mp3"),
                                              ("Audio Base64 Format", .str "SUQz")] :=
  C8_generic_wire_format plainTester (.ok forbiddenResp) 3 (by rfl)

/-- Claim C3, counterexample: a honeypot probe against the sample intel
endpoint whose fetch rejects with a transport error finalizes as
status success (a fabricated report), not as the claimed terminal
status error carrying the exception message. -/
theorem C3_counterexample :
    ((handleTestHoneypot mockHoney (.err "Failed to fetch")).1.map HoneypotState.status) =
      [.loading, .success] := by
  rfl

/-- Claim C3, amended: neither probe handler propagates a failure past its
boundary; a transport-level rejection always finalizes a terminal outcome.
When the endpoint does not contain the mock substring
("voiceguard-forensics.com" for the generic probe,
"intel.voiceguard-forensics.com" for the honeypot probe) that outcome is
status error with body (error: <exception message>); endpoints containing
the substring instead receive a fabricated success. -/
theorem C3_transport_error_outcome (t : TesterState) (h : HoneypotState)
    (msg : String) (lat : Nat)
    (hv : missingFields t = [])
    (hm : strIncludes t.endpoint "voiceguard-forensics.com" = false)
    (he : h.endpoint ≠ "")
    (hm2 : strIncludes h.endpoint "intel.voiceguard-forensics.com" = false) :
    (handleTestEndpoint t (.err msg) lat).1.getLast? =
      some { tLoading t with
               status := .error,
               response := some (.obj [("error", .str msg)]) } ∧
    (handleTestHoneypot h (.err msg)).1.getLast? =
      some { hLoading h with
               status := .error,
               response := some (.jsonV (.obj [("error", .str msg)])) } := by
  constructor
  · simp [handleTestEndpoint, hv, hm]
  · simp [handleTestHoneypot, honeypotCatchState, he, hm2]

/-- Claim C3, witness: the amended theorem at concrete non-mock states. -/
theorem C3_transport_error_outcome_witness :
    (handleTestEndpoint plainTester (.err "Failed to fetch") 3).1.getLast? =
      some { tLoading plainTester with
               status := .error,
               response := some (.obj [("error", .str "Failed to fetch")]) } ∧
    (handleTestHoneypot plainHoney (.err "Failed to fetch")).1.getLast? =
      some { hLoading plainHoney with
               status := .error,
               response := some (.jsonV (.obj [("error", .str "Failed to fetch")])) } :=
  C3_transport_error_outcome plainTester plainHoney "Failed to fetch" 3
    (by rfl) (by rfl) (by decide) (by rfl)

/-- Claim C4, counterexample: the request issued by the current honeypot
handler has body exactly (test: "honeypot_probe") - its only key is "test",
with no timestamp member, contradicting the claimed fixed body
(test, timestamp). -/
theorem C4_counterexample :
    (handleTestHoneypot plainHoney (.err "x")).2 = [honeypotRequest plainHoney] ∧
    objKeys (honeypotRequest plainHoney).body = ["test"] := by
  exact ⟨rfl, rfl⟩

/-- Claim C4, amended: every honeypot-probe request is a POST whose headers
are the JSON content type plus exactly one dynamic header made of the
caller-supplied name/value pair; the body in the current `src/App.tsx` is
the marker object (test: "honeypot_probe") with no timestamp, while the
older `src/unnamed/part_000` variant sends the marker plus an ISO timestamp
plus a context field. -/
theorem C4_request_wire_format (h : HoneypotState) (net : FetchOutcome) (now : String)
    (he : h.endpoint ≠ "") :
    (handleTestHoneypot h net).2 = [honeypotRequest h] ∧
    (honeypotRequest h).method = "POST" ∧
    (honeypotRequest h).headers = [("Content-Type", "application/json"), (h.headerKey, h.apiKey)] ∧
    (honeypotRequest h).body = .obj [("test", .str "honeypot_probe")] ∧
    (handleTestHoneypotV0 h net now).2 = [honeypotRequestV0 h now] ∧
    (honeypotRequestV0 h now).method = "POST" ∧
    (honeypotRequestV0 h now).headers =
      [("Content-Type", "application/json"), (h.headerKey, h.apiKey)] ∧
    (honeypotRequestV0 h now).body =
      .obj [("test", .str "honeypot_probe"), ("timestamp", .str now),
            ("context", .str "participant_validation_tool")] := by
  refine ⟨?_, rfl, rfl, rfl, ?_, rfl, rfl, rfl⟩
  · cases net with
    | ok resp =>
      cases hp : jsonParse resp.bodyText <;> simp [handleTestHoneypot, he, hp]
    | err msg => simp [handleTestHoneypot, he]
  · cases net with
    | ok resp =>
      cases hp : jsonParse resp.bodyText <;> simp [handleTestHoneypotV0, he, hp]
    | err msg => simp [handleTestHoneypotV0, he]

/-- Claim C4, witness: the amended wire format at a concrete state. -/
theorem C4_request_wire_format_witness :
    (handleTestHoneypot mockHoney (.err "down")).2 = [honeypotRequest mockHoney] ∧
    (honeypotRequest mockHoney).method = "POST" ∧
    (honeypotRequest mockHoney).headers =
      [("Content-Type", "application/json"), ("x-trap-authorization", "trap_dev_8821-ff90")] ∧
    (honeypotRequest mockHoney).body = .obj [("test", .str "honeypot_probe")] ∧
    (handleTestHoneypotV0 mockHoney (.err "down") "2024-01-01T00:00:00.000Z").2 =
      [honeypotRequestV0 mockHoney "2024-01-01T00:00:00.000Z"] ∧
    (honeypotRequestV0 mockHoney "2024-01-01T00:00:00.000Z").method = "POST" ∧
    (honeypotRequestV0 mockHoney "2024-01-01T00:00:00.000Z").headers =
      [("Content-Type", "application/json"), ("x-trap-authorization", "trap_dev_8821-ff90")] ∧
    (honeypotRequestV0 mockHoney "2024-01-01T00:00:00.000Z").body =
      .obj [("test", .str "honeypot_probe"), ("timestamp", .str "2024-01-01T00:00:00.000Z"),
            ("context", .str "participant_validation_tool")] :=
  C4_request_wire_format mockHoney (.err "down") "2024-01-01T00:00:00.000Z" (by decide)

/-- Claim C5, counterexample: the current honeypot handler never touches the
outcome's headers map - after receiving a response that carries the header
x-trap-fingerprint, both recorded states still have an empty headers map. -/
theorem C5_counterexample :
    headeredResp.headers = [("x-trap-fingerprint", "nexus")] ∧
    ((handleTestHoneypot plainHoney (.ok headeredResp)).1.map HoneypotState.headers) =
      [[], []] := by
  exact ⟨rfl, rfl⟩

/-- Claim C5, amended: on a received response with JSON-parseable body, the
older `src/unnamed/part_000` honeypot handler finalizes an outcome carrying
every response header, the numeric HTTP status and the decoded body, while
the current `src/App.tsx` handler records the status and decoded body but
leaves the headers map untouched; when the body is not parseable JSON the
`text()` fallback itself rejects (the body stream was already consumed by
`json()`), so the raw text is not preserved and the attempt finalizes as
status error via the catch block. -/
theorem C5_response_capture (h : HoneypotState) (resp : HttpResponse) (v : JsonVal)
    (now : String) (he : h.endpoint ≠ "") (hp : jsonParse resp.bodyText = some v) :
    (handleTestHoneypotV0 h (.ok resp) now).1.getLast? =
      some { hLoadingV0 h with
               status := if respOk resp then .success else .error,
               statusCode := some resp.status,
               response := some (.jsonV v),
               headers := resp.headers } ∧
    (handleTestHoneypot h (.ok resp)).1.getLast? =
      some { hLoading h with
               status := if respOk resp then .success else .error,
               statusCode := some resp.status,
               response := some (.jsonV v) } ∧
    (∀ resp2 : HttpResponse, jsonParse resp2.bodyText = none →
      (handleTestHoneypotV0 h (.ok resp2) now).1.getLast? =
        some { hLoadingV0 h with
                 status := .error,
                 response := some (.jsonV (.obj [("error", .str bodyStreamReadMsg)])) }) := by
  refine ⟨?_, ?_, ?_⟩
  · simp [handleTestHoneypotV0, he, hp]
  · simp [handleTestHoneypot, he, hp]
  · intro resp2 hp2
    simp [handleTestHoneypotV0, he, hp2]

/-- Claim C5, witness: the amended theorem at a concrete response carrying a
header and the JSON body (a: "b"). -/
theorem C5_response_capture_witness :
    (handleTestHoneypotV0 plainHoney (.ok headeredResp) "2024-01-01T00:00:00.000Z").1.getLast? =
      some { hLoadingV0 plainHoney with
               status := .success,
               statusCode := some 200,
               response := some (.jsonV (.obj [("a", .str "b")])),
               headers := [("x-trap-fingerprint", "nexus")] } ∧
    (handleTestHoneypot plainHoney (.ok headeredResp)).1.getLast? =
      some { hLoading plainHoney with
               status := .success,
               statusCode := some 200,
               response := some (.jsonV (.obj [("a", .str "b")])) } := by
  have h := C5_response_capture plainHoney headeredResp (.obj [("a", .str "b")])
    "2024-01-01T00:00:00.000Z" (by decide) (by rfl)
  exact ⟨by simpa using h.1, by simpa using h.2.1⟩

/-- Claim C6, counterexample: a generic probe against the sample
voiceguard-forensics endpoint whose fetch rejects with a transport error
finalizes as status success, contradicting the claim that transport failure
always yields status error. -/
theorem C6_counterexample :
    ((handleTestEndpoint mockTester (.err "Failed to fetch") 0).1.map TesterState.status) =
      [.loading, .success] := by
  rfl

/-- Claim C6, amended: for every completed generic-probe HTTP exchange the
outcome status is success exactly when the HTTP status lies in [200,299],
regardless of the body shape; on transport failure the outcome is error
provided the endpoint does not contain "voiceguard-forensics.com" (for
endpoints containing that substring the failure is replaced by a fabricated
success). -/
theorem C6_status_rule (t : TesterState) (resp : HttpResponse) (msg : String) (lat : Nat)
    (hv : missingFields t = []) :
    ((handleTestEndpoint t (.ok resp) lat).1.map TesterState.status =
      [.loading, if 200 ≤ resp.status ∧ resp.status ≤ 299 then .success else .error]) ∧
    (strIncludes t.endpoint "voiceguard-forensics.com" = false →
      (handleTestEndpoint t (.err msg) lat).1.map TesterState.status = [.loading, .error]) := by
  constructor
  · by_cases hok : 200 ≤ resp.status ∧ resp.status ≤ 299 <;>
      cases hp : jsonParse resp.bodyText <;>
      simp [handleTestEndpoint, hv, hp, respOk, hok, tLoading]
  · intro hm
    simp [handleTestEndpoint, hv, hm, tLoading]

/-- Claim C6, witness: a 403 response finalizes as error; a transport
failure against a non-mock endpoint finalizes as error. -/
theorem C6_status_rule_witness :
    ((handleTestEndpoint plainTester (.ok forbiddenResp) 9).1.map TesterState.status =
      [.loading, .error]) ∧
    ((handleTestEndpoint plainTester (.err "refused") 9).1.map TesterState.status =
      [.loading, .error]) := by
  have h := C6_status_rule plainTester forbiddenResp "refused" 9 (by rfl)
  exact ⟨by simpa using h.1, h.2 (by rfl)⟩

/-- Claim C9, counterexample: at the start of a honeypot attempt following a
previous one, the outcome record is not reset - the loading state still
carries the previous statusCode 500 and the previous body, contradicting the
claimed reset to (loading, null, null, null). -/
theorem C9_counterexample :
    ((handleTestHoneypot staleHoney (.err "x")).1.map
        (fun s => (s.status, s.statusCode, s.response))) =
      [(.loading, some 500, some (.jsonV (.obj [("old", .bool true)]))),
       (.error, some 500, some (.jsonV (.obj [("error", .str "x")])))] := by
  rfl

/-- Claim C9, amended: each attempt that passes validation performs exactly
two state updates - one loading update followed by exactly one terminal
finalization to success or error.  The generic probe's loading update resets
response and latency to null, but the honeypot probe's loading update sets
only the status, retaining the previous response and statusCode. -/
theorem C9_lifecycle (t : TesterState) (h : HoneypotState) (net : FetchOutcome) (lat : Nat)
    (hv : missingFields t = []) (he : h.endpoint ≠ "") :
    ((handleTestEndpoint t net lat).1.head? = some (tLoading t) ∧
     ((handleTestEndpoint t net lat).1.map TesterState.status = [.loading, .success] ∨
      (handleTestEndpoint t net lat).1.map TesterState.status = [.loading, .error])) ∧
    ((handleTestHoneypot h net).1.head? = some (hLoading h) ∧
     ((handleTestHoneypot h net).1.map HoneypotState.status = [.loading, .success] ∨
      (handleTestHoneypot h net).1.map HoneypotState.status = [.loading, .error])) := by
  constructor
  · cases net with
    | ok resp =>
      cases hp : jsonParse resp.bodyText <;>
        cases hok : respOk resp <;>
        simp [handleTestEndpoint, hv, hp, hok, tLoading]
    | err msg =>
      by_cases hm : strIncludes t.endpoint "voiceguard-forensics.com" = true <;>
        simp [handleTestEndpoint, hv, hm, tLoading]
  · cases net with
    | ok resp =>
      cases hp : jsonParse resp.bodyText <;>
        cases hok : respOk resp <;>
        by_cases hm : strIncludes h.endpoint "intel.voiceguard-forensics.com" = true <;>
        simp [handleTestHoneypot, honeypotCatchState, he, hp, hok, hm, hLoading]
    | err msg =>
      by_cases hm : strIncludes h.endpoint "intel.voiceguard-forensics.com" = true <;>
        simp [handleTestHoneypot, honeypotCatchState, he, hm, hLoading]

/-- Claim C9, witness: the amended lifecycle at concrete states and a
transport failure. -/
theorem C9_lifecycle_witness :
    ((handleTestEndpoint plainTester (.err "refused") 0).1.head? =
       some (tLoading plainTester) ∧
     ((handleTestEndpoint plainTester (.err "refused") 0).1.map TesterState.status =
        [.loading, .success] ∨
      (handleTestEndpoint plainTester (.err "refused") 0).1.map TesterState.status =
        [.loading, .error])) ∧
    ((handleTestHoneypot plainHoney (.err "refused")).1.head? =
       some (hLoading plainHoney) ∧
     ((handleTestHoneypot plainHoney (.err "refused")).1.map HoneypotState.status =
        [.loading, .success] ∨
      (handleTestHoneypot plainHoney (.err "refused")).1.map HoneypotState.status =
        [.loading, .error])) :=
  C9_lifecycle plainTester plainHoney (.err "refused") 0 (by rfl) (by decide)

/-- Claim C10 (confirmed): when the fetch rejects with a transport error and
the endpoint contains the mock substring, the failure is not reported: the
generic probe finalizes status success with latency 442 and the fabricated
body (classification: "AI_GENERATED", confidence: 0.982), and the honeypot
probe finalizes status success with statusCode 200 and the fabricated body
(status: "active", trap_id: "nexus-7"). -/
theorem C10_mock_success (t : TesterState) (h : HoneypotState)
    (msg msg2 : String) (lat : Nat)
    (hv : missingFields t = [])
    (hm : strIncludes t.endpoint "voiceguard-forensics.com" = true)
    (he : h.endpoint ≠ "")
    (hm2 : strIncludes h.endpoint "intel.voiceguard-forensics.com" = true) :
    (handleTestEndpoint t (.err msg) lat).1.getLast? =
      some { tLoading t with
               status := .success, latency := some 442,
               response := some genericMockBody } ∧
    (handleTestHoneypot h (.err msg2)).1.getLast? =
      some { hLoading h with
               status := .success, statusCode := some 200,
               response := some (.jsonV honeypotMockBody) } := by
  constructor
  · simp [handleTestEndpoint, hv, hm]
  · simp [handleTestHoneypot, honeypotCatchState, he, hm2]

/-- Claim C10, witness: the mock path at the sample endpoints installed by
the two load-sample helpers. -/
theorem C10_mock_success_witness :
    (handleTestEndpoint mockTester (.err "Failed to fetch") 1).1.getLast? =
      some { tLoading mockTester with
               status := .success, latency := some 442,
               response := some genericMockBody } ∧
    (handleTestHoneypot mockHoney (.err "Failed to fetch")).1.getLast? =
      some { hLoading mockHoney with
               status := .success, statusCode := some 200,
               response := some (.jsonV honeypotMockBody) } :=
  C10_mock_success mockTester mockHoney "Failed to fetch" "Failed to fetch" 1
    (by rfl) (by rfl) (by decide) (by rfl)
